import Mathlib

/-!
Shallow embedding of `src/Assignment05.py`, a push-based combinational
logic-gate simulator.

Modelling notes (all taken from the source, line numbers refer to
`src/Assignment05.py`):

* An `Input` object's `_value` attribute, an `Output` object's `_value` and
  `_connections` attributes, and a gate instance's `_next` attribute are
  per-gate-instance state, collected in `GateObj`.  `none` for a value means
  the attribute has never been assigned, so reading it raises
  `AttributeError` (Python lines 21-23, 57-59).
* `UnaryGate.__init__` (line 130) calls `CostMixin.__init__(CostMixin, 2)`
  and `LogicGate.__init__(LogicGate, name)` (line 131), i.e. it passes the
  CLASS objects as `self`; `BinaryGate.__init__` does the same (lines
  153-154).  Consequently `_cost`, `_number_of_components` and `_name` are
  stored as attributes of the classes `CostMixin` and `LogicGate`, shared by
  all gate instances; attribute lookup on any gate instance falls through its
  empty instance dict to these class attributes.  They are modelled by the
  `classCost`, `classNumComponents` and `classNameAttr` fields of `PyState`.
* `LogicGate.__init__` also assigns `self._next = None` with `self` bound to
  the class `LogicGate` (line 109), so the class-level `_next` is always
  `None`; the per-instance `_next` is only ever assigned through the property
  setter on line 123-125 (called by `Circuit.add`), so `GateObj.nxt = none`
  faithfully means "reads as None".
* Python evaluation of `a and b` / `a or b` short-circuits: the right operand
  is not read when the left already decides the result, so no
  `AttributeError` is raised for an unset right input in that case
  (`AndGate.evaluate` line 190, `OrGate.evaluate` line 198).
* Exceptions: `AttributeError` (reading a never-assigned `_value`) is
  represented by `PRes.attrErr`, any other `raise Exception(...)` by
  `PRes.exn`; both carry the state at raise time because side effects
  performed before the raise persist.  `PRes.fuelOut` is the artifact of the
  fuel parameter that makes the recursive propagation cascade and the
  `Circuit.add` tail-walk total; Python itself would recurse or loop forever
  exactly where every fuel runs out.
* `trace` is a ghost event log, appended to exactly once per invocation of
  the `Input.value` setter (line 26-30); it observes how many times and with
  which value each input is written, and has no influence on behaviour.
-/

namespace Assignment05

/-- The four concrete gate classes: `NotGate`, `AndGate`, `OrGate`,
`XorGate` (lines 179-209). -/
inductive GateKind
| notg
| andg
| org
| xorg
deriving DecidableEq, Repr

/-- Identity of one `Input` object: the index of its owner gate and which
input slot it is (0 for a unary gate's `_input` and a binary gate's
`_input0`, 1 for `_input1`). -/
structure InRef where
  gid : Nat
  idx : Nat
deriving DecidableEq, BEq, Repr

/-- Per-instance state of one gate object together with its owned `Input`
and `Output` signal objects. -/
structure GateObj where
  kind : GateKind
  in0 : Option Bool
  in1 : Option Bool
  out : Option Bool
  conns : List InRef
  nxt : Option Nat
deriving DecidableEq, Repr

/-- Per-instance state of one `Circuit` object (lines 212-233): `head` of
the linked list of gates and the `_cost` attribute (initialised to `None`,
line 216). -/
structure CircuitObj where
  head : Option Nat
  cost : Option Nat
deriving DecidableEq, Repr

/-- The whole interpreter state: all gate objects (indexed by creation
order), all circuit objects, the class-level attributes explained in the
header comment, and the ghost input-write trace. -/
structure PyState where
  gates : List GateObj
  circuits : List CircuitObj
  classNameAttr : Option String
  classCost : Option Nat
  classNumComponents : Option Nat
  trace : List (InRef × Bool)
deriving DecidableEq, Repr

/-- Result of running a statement: normal completion, an `AttributeError`
in flight, a plain `Exception` in flight, or fuel exhaustion (the model's
stand-in for Python's unbounded recursion/looping). -/
inductive PRes
| ok (s : PyState)
| attrErr (s : PyState)
| exn (s : PyState)
| fuelOut
deriving DecidableEq, Repr

/-- A `try. .. except AttributeError: pass` block around a statement
(lines 186-192, 197-200, 205-209, 50-55). -/
def catchAttr : PRes → PRes
| PRes.attrErr s => PRes.ok s
| r => r

/-- The initial interpreter state: no objects created yet, the class
attributes `CostMixin._cost`, `CostMixin._number_of_components` and
`LogicGate._name` not yet assigned. -/
def s0 : PyState := ⟨[], [], none, none, none, []⟩

mutual

/-- The `Input.value` setter (lines 25-30): store `bool(value)` in the
input's `_value`, then call the owner gate's `evaluate`.  Also appends one
entry to the ghost write trace. -/
def inputWrite (fuel : Nat) (s : PyState) (r : InRef) (v : Bool) : PRes :=
  match fuel with
  | 0 => PRes.fuelOut
  | f + 1 =>
    match s.gates[r.gid]? with
    | none => PRes.attrErr s
    | some g =>
      let g1 := if r.idx = 0 then { g with in0 := some v } else { g with in1 := some v }
      let s1 : PyState := { s with gates := s.gates.set r.gid g1, trace := s.trace ++ [(r, v)] }
      evaluate f s1 r.gid

/-- The `evaluate` methods of the four concrete gates (lines 179-209),
including Python's short-circuit evaluation of `and` / `or` and the
`try .. except AttributeError: pass` in the binary gates. -/
def evaluate (fuel : Nat) (s : PyState) (gid : Nat) : PRes :=
  match fuel with
  | 0 => PRes.fuelOut
  | f + 1 =>
    match s.gates[gid]? with
    | none => PRes.attrErr s
    | some g =>
      match g.kind with
      | GateKind.notg =>
        -- line 181: no try/except; an unset input propagates AttributeError
        match g.in0 with
        | none => PRes.attrErr s
        | some x => outputWrite f s gid (!x)
      | GateKind.andg =>
        -- line 190: `self.input0.value and self.input1.value`
        match g.in0 with
        | none => PRes.ok s          -- AttributeError from input0, caught
        | some x =>
          if x then
            match g.in1 with
            | none => PRes.ok s      -- AttributeError from input1, caught
            | some y => catchAttr (outputWrite f s gid (x && y))
          else
            -- short-circuit: input1 is never read, the output IS written
            catchAttr (outputWrite f s gid false)
      | GateKind.org =>
        -- line 198: `self.input0.value or self.input1.value`
        match g.in0 with
        | none => PRes.ok s
        | some x =>
          if x then
            -- short-circuit: input1 is never read, the output IS written
            catchAttr (outputWrite f s gid true)
          else
            match g.in1 with
            | none => PRes.ok s
            | some y => catchAttr (outputWrite f s gid (x || y))
      | GateKind.xorg =>
        -- line 207: `!=` reads both operands, no short-circuit
        match g.in0 with
        | none => PRes.ok s
        | some x =>
          match g.in1 with
          | none => PRes.ok s
          | some y => catchAttr (outputWrite f s gid (x != y))

/-- The `Output.value` setter (lines 61-67): store `bool(value)` in the
output's `_value`, then push it to every connected input in connection
order. -/
def outputWrite (fuel : Nat) (s : PyState) (gid : Nat) (v : Bool) : PRes :=
  match fuel with
  | 0 => PRes.fuelOut
  | f + 1 =>
    match s.gates[gid]? with
    | none => PRes.attrErr s
    | some g =>
      let s1 : PyState := { s with gates := s.gates.set gid { g with out := some v } }
      pushAll f s1 gid g.conns

/-- The `for connection in self._connections: connection.value = self.value`
loop of the `Output.value` setter (lines 66-67); `self.value` is re-read
from the current state on each iteration. -/
def pushAll (fuel : Nat) (s : PyState) (gid : Nat) (conns : List InRef) : PRes :=
  match fuel with
  | 0 => PRes.fuelOut
  | f + 1 =>
    match conns with
    | [] => PRes.ok s
    | r :: rest =>
      match (s.gates[gid]?).bind (fun g => g.out) with
      | none => PRes.attrErr s
      | some cv =>
        match inputWrite f s r cv with
        | PRes.ok s1 => pushAll f s1 gid rest
        | e => e

end

/-- The argument of `Output.connect`: either an actual `Input` object or
something that is not an `Input` (line 45's isinstance check). -/
inductive Target
| inp (r : InRef)
| notInput
deriving DecidableEq, Repr

/-- `Output.connect` (lines 44-55): reject non-Input targets, append the
input to `_connections` unless already present, then try to push the
output's current `_value` to the input (pushing nothing when the output's
`_value` was never assigned, because reading it raises `AttributeError`,
which is caught).  The push happens whether or not the input was already
connected. -/
def connect (fuel : Nat) (s : PyState) (gid : Nat) (t : Target) : PRes :=
  match t with
  | Target.notInput => PRes.exn s
  | Target.inp r =>
    match s.gates[gid]? with
    | none => PRes.attrErr s
    | some g =>
      let g1 := if g.conns.contains r then g else { g with conns := g.conns ++ [r] }
      let s1 : PyState := { s with gates := s.gates.set gid g1 }
      match g1.out with
      | none => PRes.ok s1
      | some v => catchAttr (inputWrite fuel s1 r v)

/-- `CostMixin.COST_MULTIPLIER` (line 75). -/
def COST_MULTIPLIER : Nat := 10

/-- Read a gate's instance-level `_next`, falling back to the class-level
`LogicGate._next`, which is always `None` (see header comment). -/
def getNxt (s : PyState) (gid : Nat) : Option Nat :=
  (s.gates[gid]?).bind (fun g => g.nxt)

/-- The `while last_entry.next: last_entry = last_entry.next` walk of
`Circuit.add` (lines 229-231), made total by fuel; `none` means the walk
did not reach a gate with unset `next` within `fuel` steps. -/
def findLast (fuel : Nat) (s : PyState) (cur : Nat) : Option Nat :=
  match fuel with
  | 0 => none
  | f + 1 =>
    match getNxt s cur with
    | some n => findLast f s n
    | none => some cur

/-- Reading `gate.cost` (property, line 86-87): the instance dict never
holds `_cost` (see header comment), so the lookup yields the class-level
`CostMixin._cost`, shared by all gates. -/
def gateCostRead (s : PyState) (gid : Nat) : Option Nat :=
  if gid < s.gates.length then s.classCost else none

/-- Reading `gate.name` (property, lines 115-117): the instance dict never
holds `_name`, so the lookup yields the class-level `LogicGate._name`,
shared by all gates. -/
def gateNameRead (s : PyState) (gid : Nat) : Option String :=
  if gid < s.gates.length then s.classNameAttr else none

/-- `Circuit.add` (lines 222-233): first gate becomes `head` and
initialises `_cost`; otherwise walk to the end of the `next` chain, link
the new gate there, and add `gate.cost` to `_cost`.  Side-effect order
follows the source: `head`/`next` are assigned before `gate.cost` is
read. -/
def circuitAdd (fuel : Nat) (s : PyState) (cid : Nat) (gid : Nat) : PRes :=
  match s.circuits[cid]? with
  | none => PRes.attrErr s
  | some c =>
    match c.head with
    | none =>
      let s1 : PyState := { s with circuits := s.circuits.set cid { head := some gid, cost := c.cost } }
      match gateCostRead s1 gid with
      | none => PRes.attrErr s1
      | some k => PRes.ok { s1 with circuits := s1.circuits.set cid { head := some gid, cost := some k } }
    | some h =>
      match findLast fuel s h with
      | none => PRes.fuelOut
      | some last =>
        match s.gates[last]? with
        | none => PRes.attrErr s
        | some lg =>
          let s1 : PyState := { s with gates := s.gates.set last { lg with nxt := some gid } }
          match gateCostRead s1 gid with
          | none => PRes.attrErr s1
          | some k =>
            match c.cost with
            | none => PRes.exn s1
            | some c0 =>
              PRes.ok { s1 with circuits := s1.circuits.set cid { head := c.head, cost := some (c0 + k) } }

/-- `Circuit.__init__` (lines 214-216): `head = None`, `_cost = None`.
Returns the new state and the index of the new circuit object. -/
def mkCircuit (s : PyState) : PyState × Nat :=
  ({ s with circuits := s.circuits ++ [{ head := none, cost := none }] }, s.circuits.length)

/-- The `circuit` argument of a gate constructor.  `Circuit.add` is reached
only through `if circuit:` followed by an isinstance check (lines 134-137,
158-161), so a falsy non-Circuit value (`0`, `False`, `""`, `[]`) is
silently treated like the default `None`, while a truthy non-Circuit value
raises. -/
inductive CircuitArg
| noCircuit
| circ (cid : Nat)
| truthyNonCircuit
| falsyNonCircuit
deriving DecidableEq, Repr

/-- `UnaryGate.__init__` (lines 129-137) / `BinaryGate.__init__` (lines
152-161): assign the class-level cost, component count and name attributes
(see header comment), create the gate instance with its unset input and
output signals, then handle the `circuit` argument. -/
def mkGate (fuel : Nat) (s : PyState) (k : GateKind) (nm : String) (carg : CircuitArg) : PRes :=
  let ncomp : Nat := match k with | GateKind.notg => 2 | _ => 3
  let s1 : PyState := { s with
    classCost := some (COST_MULTIPLIER * ncomp ^ 2),
    classNumComponents := some ncomp,
    classNameAttr := some nm }
  let gid := s1.gates.length
  let s2 : PyState := { s1 with gates := s1.gates ++ [⟨k, none, none, none, [], none⟩] }
  match carg with
  | CircuitArg.noCircuit => PRes.ok s2
  | CircuitArg.falsyNonCircuit => PRes.ok s2
  | CircuitArg.truthyNonCircuit => PRes.exn s2
  | CircuitArg.circ cid => circuitAdd fuel s2 cid gid

/-- The `owner` argument of a standalone `Input(owner)` construction. -/
inductive OwnerArg
| gateOwner (gid : Nat)
| notAGate
deriving DecidableEq, Repr

/-- `Input.__init__` (lines 4-8): raises `Exception` unless the owner is a
`LogicGate`; otherwise just records the back-reference (no other state we
track changes). -/
def mkInputStandalone (s : PyState) (o : OwnerArg) : PRes :=
  match o with
  | OwnerArg.notAGate => PRes.exn s
  | OwnerArg.gateOwner _ => PRes.ok s

/-- Extract the state from a normally-completed statement (scenario glue;
the theorems below only ever apply it to `PRes.ok` results, which the
stated equalities implicitly check). -/
def okState (r : PRes) : PyState :=
  match r with
  | PRes.ok s => s
  | PRes.attrErr s => s
  | PRes.exn s => s
  | PRes.fuelOut => s0

/-- Did the statement raise a plain `Exception`? -/
def isExn : PRes → Bool
| PRes.exn _ => true
| _ => false

/-- Did the statement complete normally? -/
def isOk : PRes → Bool
| PRes.ok _ => true
| _ => false

def runOk (r : PRes) : Option PyState :=
  match r with
  | PRes.ok s => some s
  | _ => none

/-- Read a gate's output signal value (`None` = `_value` never assigned). -/
def gateOut (s : PyState) (gid : Nat) : Option Bool :=
  (s.gates[gid]?).bind (fun g => g.out)

/-- Read a gate's first (or only) input signal value. -/
def gateIn0 (s : PyState) (gid : Nat) : Option Bool :=
  (s.gates[gid]?).bind (fun g => g.in0)

/-- Read a gate's second input signal value. -/
def gateIn1 (s : PyState) (gid : Nat) : Option Bool :=
  (s.gates[gid]?).bind (fun g => g.in1)

/-- Read a gate's output `_connections` list. -/
def gateConns (s : PyState) (gid : Nat) : List InRef :=
  ((s.gates[gid]?).map (fun g => g.conns)).getD []

/-- Read a circuit's `_cost` attribute (`None` until the first add). -/
def circuitCost (s : PyState) (cid : Nat) : Option Nat :=
  (s.circuits[cid]?).bind (fun c => c.cost)

/-- How many times the `Input.value` setter has run on input `r` so far
(counted by the ghost trace). -/
def writesTo (s : PyState) (r : InRef) : Nat :=
  (s.trace.filter (fun p => p.1 == r)).length

/-- `full_adder` (lines 236-254) is translated statement by statement,
split into three staged definitions only to keep each definition small;
`full_adder` below chains them.  Gate indices follow construction order
(`xor1` = 0, `xor2` = 1, `and1` = 2, `and2` = 3, `or` = 4) and the circuit
is circuit 0.  Stage 1: lines 237-243 (circuit, both xor gates, the writes
of `a`, `b`, the first connect, the write of `ci`). -/
def faStage1 (fuel : Nat) (a b ci : Bool) : Option PyState := do
  let s1 ← runOk (mkGate fuel (mkCircuit s0).1 GateKind.xorg "xor1" (CircuitArg.circ 0))
  let s2 ← runOk (mkGate fuel s1 GateKind.xorg "xor2" (CircuitArg.circ 0))
  let s3 ← runOk (inputWrite fuel s2 ⟨0, 1⟩ a)
  let s4 ← runOk (inputWrite fuel s3 ⟨0, 0⟩ b)
  let s5 ← runOk (connect fuel s4 0 (Target.inp ⟨1, 0⟩))
  runOk (inputWrite fuel s5 ⟨1, 1⟩ ci)

/-- Stage 2 of `full_adder`: lines 244-249 (both and gates, the write of
`ci` to `and1.input0`, the connect of `xor1.output` to `and1.input1`, the
writes of `a`, `b` to `and2`). -/
def faStage2 (fuel : Nat) (a b ci : Bool) (s : PyState) : Option PyState := do
  let s7 ← runOk (mkGate fuel s GateKind.andg "and1" (CircuitArg.circ 0))
  let s8 ← runOk (mkGate fuel s7 GateKind.andg "and2" (CircuitArg.circ 0))
  let s9 ← runOk (inputWrite fuel s8 ⟨2, 0⟩ ci)
  let s10 ← runOk (connect fuel s9 0 (Target.inp ⟨2, 1⟩))
  let s11 ← runOk (inputWrite fuel s10 ⟨3, 0⟩ a)
  runOk (inputWrite fuel s11 ⟨3, 1⟩ b)

/-- Stage 3 of `full_adder`: lines 250-252 (the or gate and the connects of
both and outputs into it). -/
def faStage3 (fuel : Nat) (s : PyState) : Option PyState := do
  let s13 ← runOk (mkGate fuel s GateKind.org "or" (CircuitArg.circ 0))
  let s14 ← runOk (connect fuel s13 2 (Target.inp ⟨4, 0⟩))
  runOk (connect fuel s14 3 (Target.inp ⟨4, 1⟩))

/-- `full_adder` (lines 236-254): returns the model of
`(xor_gate2.output, or_gate.output.value, circuit.cost)` (line 253) —
the sum output signal's value, the carry value and the circuit cost —
with `none` when any statement raised or ran out of fuel (reading
`or_gate.output.value` while unset would raise, hence the bind on the
carry). -/
def full_adder (fuel : Nat) (a b ci : Bool) : Option (Option Bool × Bool × Option Nat) := do
  let s ← faStage1 fuel a b ci
  let s2 ← faStage2 fuel a b ci s
  let s3 ← faStage3 fuel s2
  let carry ← gateOut s3 4
  pure (gateOut s3 1, carry, circuitCost s3 0)

/-- The instance-level `next`-chain starting at gate `h`: `Chain s h L`
says that following `next` pointers from `h` visits exactly the gates in
`L` and ends at a gate whose `next` reads as `None` — the shape on which
the `while` loop of `Circuit.add` terminates. -/
inductive Chain (s : PyState) : Nat → List Nat → Prop
| last (h : Nat) : getNxt s h = none → Chain s h [h]
| cons (h n : Nat) (L : List Nat) : getNxt s h = some n → Chain s n L → Chain s h (h :: L)

/- Scenario states used by the theorems below. -/

/-- A single gate of kind `k` constructed with no circuit. -/
def freshGate (k : GateKind) : PyState :=
  okState (mkGate 9 s0 k "g" CircuitArg.noCircuit)

/-- Fresh `AndGate` after `input0.value = False` with `input1` never set. -/
def andPartial : PyState := okState (inputWrite 9 (freshGate GateKind.andg) ⟨0, 0⟩ false)

/-- Fresh `OrGate` after `input0.value = True` with `input1` never set. -/
def orPartial : PyState := okState (inputWrite 9 (freshGate GateKind.org) ⟨0, 0⟩ true)

/-- Fresh `XorGate` after a single input write (slot `i`, value `v`). -/
def xorPartial (i : Nat) (v : Bool) : PyState :=
  okState (inputWrite 9 (freshGate GateKind.xorg) ⟨0, i⟩ v)

/-- Fresh `AndGate` after `input1.value = v` with `input0` never set. -/
def andPartial1 (v : Bool) : PyState :=
  okState (inputWrite 9 (freshGate GateKind.andg) ⟨0, 1⟩ v)

/-- Fresh `OrGate` after `input1.value = v` with `input0` never set. -/
def orPartial1 (v : Bool) : PyState :=
  okState (inputWrite 9 (freshGate GateKind.org) ⟨0, 1⟩ v)

/-- Output of a fresh binary gate of kind `k` after writing both inputs
(`input0 := x`, `input1 := y`), in the order selected by `zeroFirst`. -/
def binOut (k : GateKind) (zeroFirst : Bool) (x y : Bool) : Option Bool :=
  let s1 := freshGate k
  let s2 := if zeroFirst then okState (inputWrite 9 s1 ⟨0, 0⟩ x)
            else okState (inputWrite 9 s1 ⟨0, 1⟩ y)
  let s3 := if zeroFirst then okState (inputWrite 9 s2 ⟨0, 1⟩ y)
            else okState (inputWrite 9 s2 ⟨0, 0⟩ x)
  gateOut s3 0

/-- Output of a fresh binary gate of kind `k` after `input0 := x`,
`input1 := y`, and then overwriting `input1 := z`. -/
def binOutRewrite (k : GateKind) (x y z : Bool) : Option Bool :=
  gateOut (okState (inputWrite 9 (okState (inputWrite 9 (okState
    (inputWrite 9 (freshGate k) ⟨0, 0⟩ x)) ⟨0, 1⟩ y)) ⟨0, 1⟩ z)) 0

/-- Output of a fresh `NotGate` after `input.value = x`. -/
def notOut (x : Bool) : Option Bool :=
  gateOut (okState (inputWrite 9 (freshGate GateKind.notg) ⟨0, 0⟩ x)) 0

/-- `NotGate("u")` then `AndGate("b")`, neither in a circuit: gate 0 is the
unary gate, gate 1 the binary gate. -/
def twoGatesState : PyState :=
  okState (mkGate 9 (okState (mkGate 9 s0 GateKind.notg "u" CircuitArg.noCircuit))
    GateKind.andg "b" CircuitArg.noCircuit)

/-- `NotGate("a")` then `NotGate("b")`, neither in a circuit. -/
def twoNamedNots : PyState :=
  okState (mkGate 9 (okState (mkGate 9 s0 GateKind.notg "a" CircuitArg.noCircuit))
    GateKind.notg "b" CircuitArg.noCircuit)

/-- `twoGatesState` followed by `circuit = Circuit()` (circuit 0, empty). -/
def c4Pre : PyState := (mkCircuit twoGatesState).1

/-- `c4Pre` followed by `circuit.add(u)` where `u` is the unary gate 0. -/
def c4Post : PyState := okState (circuitAdd 9 c4Pre 0 0)

/-- Two `NotGate`s ("n1" = gate 0, "n2" = gate 1), no circuit. -/
def twoNots : PyState :=
  okState (mkGate 9 (okState (mkGate 9 s0 GateKind.notg "n1" CircuitArg.noCircuit))
    GateKind.notg "n2" CircuitArg.noCircuit)

/-- C6 scenario A, before the connect: `n1.input.value = v` (so `n1.output`
holds `¬v`), `n2` untouched and unconnected. -/
def c6Pre (v : Bool) : PyState := okState (inputWrite 9 twoNots ⟨0, 0⟩ v)

/-- C6 scenario A: `n1.output.connect(n2.input)` performed after `n1`
already holds an output value. -/
def c6After (v : Bool) : PyState := okState (connect 9 (c6Pre v) 0 (Target.inp ⟨1, 0⟩))

/-- C6 scenario B: `n1.output.connect(n2.input)` performed while
`n1.output` is still unset. -/
def c6ConnFirst : PyState := okState (connect 9 twoNots 0 (Target.inp ⟨1, 0⟩))

/-- C6 scenario B continued: the first subsequent write `n1.input.value = v`. -/
def c6ThenWrite (v : Bool) : PyState := okState (inputWrite 9 c6ConnFirst ⟨0, 0⟩ v)

/-- C7 scenario: `n1.output.connect(n2.input)` on fresh gates. -/
def c7s1 : PyState := okState (connect 9 twoNots 0 (Target.inp ⟨1, 0⟩))

/-- C7 scenario: then `n1.input.value = False`, so `n1.output = True`
propagates and `n2.input = True`, `n2.output = False`. -/
def c7s2 : PyState := okState (inputWrite 9 c7s1 ⟨0, 0⟩ false)

/-- C7 scenario: then `n2.input.value = False` written directly, so
`n2.output = True` while `n1.output` is still `True`. -/
def c7s3 : PyState := okState (inputWrite 9 c7s2 ⟨1, 0⟩ false)

/-- C7 scenario: the duplicate `n1.output.connect(n2.input)`. -/
def c7s4 : PyState := okState (connect 9 c7s3 0 (Target.inp ⟨1, 0⟩))

/-- C7 scenario: a later write `n1.input.value = True` to check that the
single observer entry notifies `n2.input` exactly once. -/
def c7s5 : PyState := okState (inputWrite 9 c7s4 ⟨0, 0⟩ true)

/-- C10 scenario: `circuit = Circuit()` then `AndGate("g1", circuit)`; the
circuit's head is gate 0 and the chain is the single gate 0. -/
def stA : PyState :=
  okState (mkGate 9 (mkCircuit s0).1 GateKind.andg "g1" (CircuitArg.circ 0))

/-- C10 scenario: the duplicate `circuit.add(g1)`, which links gate 0 as
its own successor. -/
def stB : PyState := okState (circuitAdd 9 stA 0 0)

/- The intermediate states of `full_adder(True, True, False)`, one per
source statement, written out literally so that each statement of the run
can be checked by a separate small evaluation. -/

/-- The state after `xor_gate1 = XorGate("xor1", circuit)` (line 238). -/
def faS1 : PyState :=
  { gates := [{ kind := Assignment05.GateKind.xorg, in0 := none, in1 := none, out := none, conns := [], nxt := none }],
    circuits := [{ head := some 0, cost := some 90 }],
    classNameAttr := some "xor1",
    classCost := some 90,
    classNumComponents := some 3,
    trace := [] }

/-- The state after `xor_gate2 = XorGate("xor2", circuit)` (line 239). -/
def faS2 : PyState :=
  { gates := [{ kind := Assignment05.GateKind.xorg, in0 := none, in1 := none, out := none, conns := [], nxt := some 1 },
              { kind := Assignment05.GateKind.xorg, in0 := none, in1 := none, out := none, conns := [], nxt := none }],
    circuits := [{ head := some 0, cost := some 180 }],
    classNameAttr := some "xor2",
    classCost := some 90,
    classNumComponents := some 3,
    trace := [] }

/-- The state after `xor_gate1.input1.value = a` (line 240). -/
def faS3 : PyState :=
  { gates := [{ kind := Assignment05.GateKind.xorg,
                in0 := none,
                in1 := some true,
                out := none,
                conns := [],
                nxt := some 1 },
              { kind := Assignment05.GateKind.xorg, in0 := none, in1 := none, out := none, conns := [], nxt := none }],
    circuits := [{ head := some 0, cost := some 180 }],
    classNameAttr := some "xor2",
    classCost := some 90,
    classNumComponents := some 3,
    trace := [({ gid := 0, idx := 1 }, true)] }

/-- The state after `xor_gate1.input0.value = b` (line 241). -/
def faS4 : PyState :=
  { gates := [{ kind := Assignment05.GateKind.xorg,
                in0 := some true,
                in1 := some true,
                out := some false,
                conns := [],
                nxt := some 1 },
              { kind := Assignment05.GateKind.xorg, in0 := none, in1 := none, out := none, conns := [], nxt := none }],
    circuits := [{ head := some 0, cost := some 180 }],
    classNameAttr := some "xor2",
    classCost := some 90,
    classNumComponents := some 3,
    trace := [({ gid := 0, idx := 1 }, true), ({ gid := 0, idx := 0 }, true)] }

/-- The state after `xor_gate1.output.connect(xor_gate2.input0)` (line 242). -/
def faS5 : PyState :=
  { gates := [{ kind := Assignment05.GateKind.xorg,
                in0 := some true,
                in1 := some true,
                out := some false,
                conns := [{ gid := 1, idx := 0 }],
                nxt := some 1 },
              { kind := Assignment05.GateKind.xorg,
                in0 := some false,
                in1 := none,
                out := none,
                conns := [],
                nxt := none }],
    circuits := [{ head := some 0, cost := some 180 }],
    classNameAttr := some "xor2",
    classCost := some 90,
    classNumComponents := some 3,
    trace := [({ gid := 0, idx := 1 }, true), ({ gid := 0, idx := 0 }, true), ({ gid := 1, idx := 0 }, false)] }

/-- The state after `xor_gate2.input1.value = ci` (line 243), the end of stage 1. -/
def faS6 : PyState :=
  { gates := [{ kind := Assignment05.GateKind.xorg,
                in0 := some true,
                in1 := some true,
                out := some false,
                conns := [{ gid := 1, idx := 0 }],
                nxt := some 1 },
              { kind := Assignment05.GateKind.xorg,
                in0 := some false,
                in1 := some false,
                out := some false,
                conns := [],
                nxt := none }],
    circuits := [{ head := some 0, cost := some 180 }],
    classNameAttr := some "xor2",
    classCost := some 90,
    classNumComponents := some 3,
    trace := [({ gid := 0, idx := 1 }, true),
              ({ gid := 0, idx := 0 }, true),
              ({ gid := 1, idx := 0 }, false),
              ({ gid := 1, idx := 1 }, false)] }

/-- The state after `and_gate1 = AndGate("and1", circuit)` (line 244). -/
def faS7 : PyState :=
  { gates := [{ kind := Assignment05.GateKind.xorg,
                in0 := some true,
                in1 := some true,
                out := some false,
                conns := [{ gid := 1, idx := 0 }],
                nxt := some 1 },
              { kind := Assignment05.GateKind.xorg,
                in0 := some false,
                in1 := some false,
                out := some false,
                conns := [],
                nxt := some 2 },
              { kind := Assignment05.GateKind.andg, in0 := none, in1 := none, out := none, conns := [], nxt := none }],
    circuits := [{ head := some 0, cost := some 270 }],
    classNameAttr := some "and1",
    classCost := some 90,
    classNumComponents := some 3,
    trace := [({ gid := 0, idx := 1 }, true),
              ({ gid := 0, idx := 0 }, true),
              ({ gid := 1, idx := 0 }, false),
              ({ gid := 1, idx := 1 }, false)] }

/-- The state after `and_gate2 = AndGate("and2", circuit)` (line 245). -/
def faS8 : PyState :=
  { gates := [{ kind := Assignment05.GateKind.xorg,
                in0 := some true,
                in1 := some true,
                out := some false,
                conns := [{ gid := 1, idx := 0 }],
                nxt := some 1 },
              { kind := Assignment05.GateKind.xorg,
                in0 := some false,
                in1 := some false,
                out := some false,
                conns := [],
                nxt := some 2 },
              { kind := Assignment05.GateKind.andg, in0 := none, in1 := none, out := none, conns := [], nxt := some 3 },
              { kind := Assignment05.GateKind.andg, in0 := none, in1 := none, out := none, conns := [], nxt := none }],
    circuits := [{ head := some 0, cost := some 360 }],
    classNameAttr := some "and2",
    classCost := some 90,
    classNumComponents := some 3,
    trace := [({ gid := 0, idx := 1 }, true),
              ({ gid := 0, idx := 0 }, true),
              ({ gid := 1, idx := 0 }, false),
              ({ gid := 1, idx := 1 }, false)] }

/-- The state after `and_gate1.input0.value = ci` (line 246). -/
def faS9 : PyState :=
  { gates := [{ kind := Assignment05.GateKind.xorg,
                in0 := some true,
                in1 := some true,
                out := some false,
                conns := [{ gid := 1, idx := 0 }],
                nxt := some 1 },
              { kind := Assignment05.GateKind.xorg,
                in0 := some false,
                in1 := some false,
                out := some false,
                conns := [],
                nxt := some 2 },
              { kind := Assignment05.GateKind.andg,
                in0 := some false,
                in1 := none,
                out := some false,
                conns := [],
                nxt := some 3 },
              { kind := Assignment05.GateKind.andg, in0 := none, in1 := none, out := none, conns := [], nxt := none }],
    circuits := [{ head := some 0, cost := some 360 }],
    classNameAttr := some "and2",
    classCost := some 90,
    classNumComponents := some 3,
    trace := [({ gid := 0, idx := 1 }, true),
              ({ gid := 0, idx := 0 }, true),
              ({ gid := 1, idx := 0 }, false),
              ({ gid := 1, idx := 1 }, false),
              ({ gid := 2, idx := 0 }, false)] }

/-- The state after `xor_gate1.output.connect(and_gate1.input1)` (line 247). -/
def faS10 : PyState :=
  { gates := [{ kind := Assignment05.GateKind.xorg,
                in0 := some true,
                in1 := some true,
                out := some false,
                conns := [{ gid := 1, idx := 0 }, { gid := 2, idx := 1 }],
                nxt := some 1 },
              { kind := Assignment05.GateKind.xorg,
                in0 := some false,
                in1 := some false,
                out := some false,
                conns := [],
                nxt := some 2 },
              { kind := Assignment05.GateKind.andg,
                in0 := some false,
                in1 := some false,
                out := some false,
                conns := [],
                nxt := some 3 },
              { kind := Assignment05.GateKind.andg, in0 := none, in1 := none, out := none, conns := [], nxt := none }],
    circuits := [{ head := some 0, cost := some 360 }],
    classNameAttr := some "and2",
    classCost := some 90,
    classNumComponents := some 3,
    trace := [({ gid := 0, idx := 1 }, true),
              ({ gid := 0, idx := 0 }, true),
              ({ gid := 1, idx := 0 }, false),
              ({ gid := 1, idx := 1 }, false),
              ({ gid := 2, idx := 0 }, false),
              ({ gid := 2, idx := 1 }, false)] }

/-- The state after `and_gate2.input0.value = a` (line 248). -/
def faS11 : PyState :=
  { gates := [{ kind := Assignment05.GateKind.xorg,
                in0 := some true,
                in1 := some true,
                out := some false,
                conns := [{ gid := 1, idx := 0 }, { gid := 2, idx := 1 }],
                nxt := some 1 },
              { kind := Assignment05.GateKind.xorg,
                in0 := some false,
                in1 := some false,
                out := some false,
                conns := [],
                nxt := some 2 },
              { kind := Assignment05.GateKind.andg,
                in0 := some false,
                in1 := some false,
                out := some false,
                conns := [],
                nxt := some 3 },
              { kind := Assignment05.GateKind.andg,
                in0 := some true,
                in1 := none,
                out := none,
                conns := [],
                nxt := none }],
    circuits := [{ head := some 0, cost := some 360 }],
    classNameAttr := some "and2",
    classCost := some 90,
    classNumComponents := some 3,
    trace := [({ gid := 0, idx := 1 }, true),
              ({ gid := 0, idx := 0 }, true),
              ({ gid := 1, idx := 0 }, false),
              ({ gid := 1, idx := 1 }, false),
              ({ gid := 2, idx := 0 }, false),
              ({ gid := 2, idx := 1 }, false),
              ({ gid := 3, idx := 0 }, true)] }

/-- The state after `and_gate2.input1.value = b` (line 249), the end of stage 2. -/
def faS12 : PyState :=
  { gates := [{ kind := Assignment05.GateKind.xorg,
                in0 := some true,
                in1 := some true,
                out := some false,
                conns := [{ gid := 1, idx := 0 }, { gid := 2, idx := 1 }],
                nxt := some 1 },
              { kind := Assignment05.GateKind.xorg,
                in0 := some false,
                in1 := some false,
                out := some false,
                conns := [],
                nxt := some 2 },
              { kind := Assignment05.GateKind.andg,
                in0 := some false,
                in1 := some false,
                out := some false,
                conns := [],
                nxt := some 3 },
              { kind := Assignment05.GateKind.andg,
                in0 := some true,
                in1 := some true,
                out := some true,
                conns := [],
                nxt := none }],
    circuits := [{ head := some 0, cost := some 360 }],
    classNameAttr := some "and2",
    classCost := some 90,
    classNumComponents := some 3,
    trace := [({ gid := 0, idx := 1 }, true),
              ({ gid := 0, idx := 0 }, true),
              ({ gid := 1, idx := 0 }, false),
              ({ gid := 1, idx := 1 }, false),
              ({ gid := 2, idx := 0 }, false),
              ({ gid := 2, idx := 1 }, false),
              ({ gid := 3, idx := 0 }, true),
              ({ gid := 3, idx := 1 }, true)] }

/-- The state after `or_gate = OrGate("or", circuit)` (line 250). -/
def faS13 : PyState :=
  { gates := [{ kind := Assignment05.GateKind.xorg,
                in0 := some true,
                in1 := some true,
                out := some false,
                conns := [{ gid := 1, idx := 0 }, { gid := 2, idx := 1 }],
                nxt := some 1 },
              { kind := Assignment05.GateKind.xorg,
                in0 := some false,
                in1 := some false,
                out := some false,
                conns := [],
                nxt := some 2 },
              { kind := Assignment05.GateKind.andg,
                in0 := some false,
                in1 := some false,
                out := some false,
                conns := [],
                nxt := some 3 },
              { kind := Assignment05.GateKind.andg,
                in0 := some true,
                in1 := some true,
                out := some true,
                conns := [],
                nxt := some 4 },
              { kind := Assignment05.GateKind.org, in0 := none, in1 := none, out := none, conns := [], nxt := none }],
    circuits := [{ head := some 0, cost := some 450 }],
    classNameAttr := some "or",
    classCost := some 90,
    classNumComponents := some 3,
    trace := [({ gid := 0, idx := 1 }, true),
              ({ gid := 0, idx := 0 }, true),
              ({ gid := 1, idx := 0 }, false),
              ({ gid := 1, idx := 1 }, false),
              ({ gid := 2, idx := 0 }, false),
              ({ gid := 2, idx := 1 }, false),
              ({ gid := 3, idx := 0 }, true),
              ({ gid := 3, idx := 1 }, true)] }

/-- The state after `and_gate1.output.connect(or_gate.input0)` (line 251). -/
def faS14 : PyState :=
  { gates := [{ kind := Assignment05.GateKind.xorg,
                in0 := some true,
                in1 := some true,
                out := some false,
                conns := [{ gid := 1, idx := 0 }, { gid := 2, idx := 1 }],
                nxt := some 1 },
              { kind := Assignment05.GateKind.xorg,
                in0 := some false,
                in1 := some false,
                out := some false,
                conns := [],
                nxt := some 2 },
              { kind := Assignment05.GateKind.andg,
                in0 := some false,
                in1 := some false,
                out := some false,
                conns := [{ gid := 4, idx := 0 }],
                nxt := some 3 },
              { kind := Assignment05.GateKind.andg,
                in0 := some true,
                in1 := some true,
                out := some true,
                conns := [],
                nxt := some 4 },
              { kind := Assignment05.GateKind.org,
                in0 := some false,
                in1 := none,
                out := none,
                conns := [],
                nxt := none }],
    circuits := [{ head := some 0, cost := some 450 }],
    classNameAttr := some "or",
    classCost := some 90,
    classNumComponents := some 3,
    trace := [({ gid := 0, idx := 1 }, true),
              ({ gid := 0, idx := 0 }, true),
              ({ gid := 1, idx := 0 }, false),
              ({ gid := 1, idx := 1 }, false),
              ({ gid := 2, idx := 0 }, false),
              ({ gid := 2, idx := 1 }, false),
              ({ gid := 3, idx := 0 }, true),
              ({ gid := 3, idx := 1 }, true),
              ({ gid := 4, idx := 0 }, false)] }

/-- The state after `and_gate2.output.connect(or_gate.input1)` (line 252), the end of stage 3. -/
def faS15 : PyState :=
  { gates := [{ kind := Assignment05.GateKind.xorg,
                in0 := some true,
                in1 := some true,
                out := some false,
                conns := [{ gid := 1, idx := 0 }, { gid := 2, idx := 1 }],
                nxt := some 1 },
              { kind := Assignment05.GateKind.xorg,
                in0 := some false,
                in1 := some false,
                out := some false,
                conns := [],
                nxt := some 2 },
              { kind := Assignment05.GateKind.andg,
                in0 := some false,
                in1 := some false,
                out := some false,
                conns := [{ gid := 4, idx := 0 }],
                nxt := some 3 },
              { kind := Assignment05.GateKind.andg,
                in0 := some true,
                in1 := some true,
                out := some true,
                conns := [{ gid := 4, idx := 1 }],
                nxt := some 4 },
              { kind := Assignment05.GateKind.org,
                in0 := some false,
                in1 := some true,
                out := some true,
                conns := [],
                nxt := none }],
    circuits := [{ head := some 0, cost := some 450 }],
    classNameAttr := some "or",
    classCost := some 90,
    classNumComponents := some 3,
    trace := [({ gid := 0, idx := 1 }, true),
              ({ gid := 0, idx := 0 }, true),
              ({ gid := 1, idx := 0 }, false),
              ({ gid := 1, idx := 1 }, false),
              ({ gid := 2, idx := 0 }, false),
              ({ gid := 2, idx := 1 }, false),
              ({ gid := 3, idx := 0 }, true),
              ({ gid := 3, idx := 1 }, true),
              ({ gid := 4, idx := 0 }, false),
              ({ gid := 4, idx := 1 }, true)] }

/- Helper lemmas about the tail-walk of `Circuit.add`. -/

/-- Walking the `next` chain from the head of a `Chain` reaches its end
within `L.length` steps. -/
theorem findLast_of_chain (s : PyState) (h : Nat) (L : List Nat) (hc : Chain s h L) :
    ∃ last, findLast L.length s h = some last := by
  induction hc with
  | last g hg => exact ⟨g, by simp [findLast, hg]⟩
  | cons g n L2 hg _ ih =>
    obtain ⟨last, hl⟩ := ih
    exact ⟨last, by simp [findLast, hg, hl]⟩

/-- A gate that is its own `next` successor makes the tail walk diverge:
no amount of fuel finds the end of the chain. -/
theorem findLast_selfloop (s : PyState) (cur : Nat) (hcur : getNxt s cur = some cur) :
    ∀ fuel, findLast fuel s cur = none := by
  intro fuel
  induction fuel with
  | zero => rfl
  | succ n ih => simp [findLast, hcur, ih]

/-- Statement 1 of the `full_adder(True, True, False)` run completes
normally and yields `faS1`. -/
theorem faL1 : mkGate 30 (mkCircuit s0).1 GateKind.xorg "xor1" (CircuitArg.circ 0) = PRes.ok faS1 := by decide

/-- Statement 2 of the `full_adder(True, True, False)` run completes
normally and yields `faS2`. -/
theorem faL2 : mkGate 30 faS1 GateKind.xorg "xor2" (CircuitArg.circ 0) = PRes.ok faS2 := by decide

/-- Statement 3 of the `full_adder(True, True, False)` run completes
normally and yields `faS3`. -/
theorem faL3 : inputWrite 30 faS2 ⟨0, 1⟩ true = PRes.ok faS3 := by decide

/-- Statement 4 of the `full_adder(True, True, False)` run completes
normally and yields `faS4`. -/
theorem faL4 : inputWrite 30 faS3 ⟨0, 0⟩ true = PRes.ok faS4 := by decide

/-- Statement 5 of the `full_adder(True, True, False)` run completes
normally and yields `faS5`. -/
theorem faL5 : connect 30 faS4 0 (Target.inp ⟨1, 0⟩) = PRes.ok faS5 := by decide

/-- Statement 6 of the `full_adder(True, True, False)` run completes
normally and yields `faS6`. -/
theorem faL6 : inputWrite 30 faS5 ⟨1, 1⟩ false = PRes.ok faS6 := by decide

/-- Statement 7 of the `full_adder(True, True, False)` run completes
normally and yields `faS7`. -/
theorem faL7 : mkGate 30 faS6 GateKind.andg "and1" (CircuitArg.circ 0) = PRes.ok faS7 := by decide

/-- Statement 8 of the `full_adder(True, True, False)` run completes
normally and yields `faS8`. -/
theorem faL8 : mkGate 30 faS7 GateKind.andg "and2" (CircuitArg.circ 0) = PRes.ok faS8 := by decide

/-- Statement 9 of the `full_adder(True, True, False)` run completes
normally and yields `faS9`. -/
theorem faL9 : inputWrite 30 faS8 ⟨2, 0⟩ false = PRes.ok faS9 := by decide

/-- Statement 10 of the `full_adder(True, True, False)` run completes
normally and yields `faS10`. -/
theorem faL10 : connect 30 faS9 0 (Target.inp ⟨2, 1⟩) = PRes.ok faS10 := by decide

/-- Statement 11 of the `full_adder(True, True, False)` run completes
normally and yields `faS11`. -/
theorem faL11 : inputWrite 30 faS10 ⟨3, 0⟩ true = PRes.ok faS11 := by decide

/-- Statement 12 of the `full_adder(True, True, False)` run completes
normally and yields `faS12`. -/
theorem faL12 : inputWrite 30 faS11 ⟨3, 1⟩ true = PRes.ok faS12 := by decide

/-- Statement 13 of the `full_adder(True, True, False)` run completes
normally and yields `faS13`. -/
theorem faL13 : mkGate 30 faS12 GateKind.org "or" (CircuitArg.circ 0) = PRes.ok faS13 := by decide

/-- Statement 14 of the `full_adder(True, True, False)` run completes
normally and yields `faS14`. -/
theorem faL14 : connect 30 faS13 2 (Target.inp ⟨4, 0⟩) = PRes.ok faS14 := by decide

/-- Statement 15 of the `full_adder(True, True, False)` run completes
normally and yields `faS15`. -/
theorem faL15 : connect 30 faS14 3 (Target.inp ⟨4, 1⟩) = PRes.ok faS15 := by decide

/-- Stage 1 of `full_adder(True, True, False)` computes `faS6`. -/
theorem faStage1_eval : faStage1 30 true true false = some faS6 := by
  simp only [faStage1, faL1, faL2, faL3, faL4, faL5, faL6, runOk,
    Option.bind_eq_bind', Option.some_bind']

/-- Stage 2 continues from `faS6` to `faS12`. -/
theorem faStage2_eval : faStage2 30 true true false faS6 = some faS12 := by
  simp only [faStage2, faL7, faL8, faL9, faL10, faL11, faL12, runOk,
    Option.bind_eq_bind', Option.some_bind']

/-- Stage 3 continues from `faS12` to `faS15`. -/
theorem faStage3_eval : faStage3 30 faS12 = some faS15 := by
  simp only [faStage3, faL13, faL14, faL15, runOk,
    Option.bind_eq_bind', Option.some_bind']

/- The claims. -/

/-- C1 (code bug, refuting evaluation): a write to only one input of a
binary gate can write the output.  Python's short-circuit `and` / `or`
(lines 190, 198) skips the read of the unset `input1` when `input0`
already decides the result, so no AttributeError fires: a fresh `AndGate`
whose `input0` is set to `False` (with `input1` never set) has its output
written to `False`, and a fresh `OrGate` whose `input0` is set to `True`
has its output written to `True` — contradicting the claim (and the
source's own comment on lines 187-189) that the output stays unset until
both inputs are defined. -/
theorem partial_input_writes_output :
    gateIn1 andPartial 0 = none ∧ gateOut andPartial 0 = some false ∧
    gateIn1 orPartial 0 = none ∧ gateOut orPartial 0 = some true := by decide

/-- C2: once all of a gate's inputs hold defined boolean values, the
evaluation triggered by the last input write stores the gate's boolean
function of the current input values in the output: `NotGate` yields
`¬x`; `AndGate`, `OrGate` and `XorGate` yield `x ∧ y`, `x ∨ y` and
`x ≠ y` for both orders of setting the two inputs, and overwriting an
input re-evaluates against the current values. -/
theorem evaluate_truth_tables :
    ∀ x y z o : Bool,
      notOut x = some (!x) ∧
      binOut GateKind.andg o x y = some (x && y) ∧
      binOut GateKind.org o x y = some (x || y) ∧
      binOut GateKind.xorg o x y = some (x != y) ∧
      binOutRewrite GateKind.andg x y z = some (x && z) ∧
      binOutRewrite GateKind.org x y z = some (x || z) ∧
      binOutRewrite GateKind.xorg x y z = some (x != z) := by decide

/-- C3 (code bug): a gate's cost is NOT a per-gate constant.  Because
`UnaryGate.__init__` calls `CostMixin.__init__(CostMixin, 2)` (line 130) —
passing the class, not the instance — `_cost` lives on the class
`CostMixin`, shared by every gate; after constructing `NotGate("u")`
(gate 0) and then `AndGate("b")` (gate 1), reading the unary gate's cost
returns 90 (the binary constant), not its own 40. -/
theorem cost_shared_class_attribute :
    gateCostRead twoGatesState 0 = some 90 ∧ gateCostRead twoGatesState 1 = some 90 := by decide

/-- C8 (code bug): a gate's name is NOT a per-gate identifier.  Because
`LogicGate.__init__(LogicGate, name)` (lines 131, 153) passes the class as
`self`, `_name` lives on the class `LogicGate`, shared by every gate;
after constructing `NotGate("a")` (gate 0) and then `NotGate("b")`
(gate 1), reading the first gate's name returns `"b"`, not its own
`"a"`. -/
theorem name_shared_class_attribute :
    gateNameRead twoNamedNots 0 = some "b" ∧ gateNameRead twoNamedNots 1 = some "b" := by decide

/-- C4 (code bug): a circuit's cost reads as `None` before any add, but an
add does NOT contribute the added gate's own per-arity cost: it reads the
class-level `_cost` shared by all gates (see C3).  Adding the unary gate 0
to a fresh circuit after a binary gate was constructed records cost 90,
where the claim requires 40. -/
theorem circuit_cost_uses_shared_cost :
    circuitCost c4Pre 0 = none ∧ circuitCost c4Post 0 = some 90 := by decide

/-- C5: `full_adder(True, True, False)` returns a sum signal whose value
is `False`, a carry value of `True`, and a circuit cost of 450 (five
binary gates, each registered at construction with the class cost 90 just
set by its own constructor). -/
theorem full_adder_true_true_false :
    full_adder 30 true true false = some (some false, true, some 450) := by
  simp only [full_adder, faStage1_eval, faStage2_eval, faStage3_eval,
    Option.bind_eq_bind', Option.some_bind']
  decide

/-- C6: connecting an output that already holds a defined value writes
that value to the newly connected input exactly once (one new entry in the
input-write trace) and the input's owner gate evaluates (here `n2.output`
becomes `v` again after `n1.output = ¬v` is pushed); connecting while the
output is still unset writes nothing, and the input first receives a value
on the output's first subsequent write. -/
theorem connect_push_semantics :
    ∀ v : Bool,
      gateIn0 (c6After v) 1 = some (!v) ∧
      gateOut (c6After v) 1 = some v ∧
      writesTo (c6After v) ⟨1, 0⟩ = writesTo (c6Pre v) ⟨1, 0⟩ + 1 ∧
      gateIn0 c6ConnFirst 1 = none ∧
      writesTo c6ConnFirst ⟨1, 0⟩ = 0 ∧
      gateIn0 (c6ThenWrite v) 1 = some (!v) ∧
      writesTo (c6ThenWrite v) ⟨1, 0⟩ = 1 := by decide

/-- C7 counterexample: re-connecting an already-connected input is NOT a
no-op when the output holds a defined value.  With `n1.output = True`
connected to `n2.input`, after `n2.input` was directly overwritten to
`False`, the duplicate `n1.output.connect(n2.input)` pushes `True` to
`n2.input` again (one more input-write event), where the claim says no
push is made to the already-connected input. -/
theorem duplicate_connect_pushes_again :
    gateIn0 c7s3 1 = some false ∧
    gateIn0 c7s4 1 = some true ∧
    writesTo c7s4 ⟨1, 0⟩ = writesTo c7s3 ⟨1, 0⟩ + 1 := by decide

/-- C7 (amended): a duplicate connect adds no duplicate observer entry,
and a later write to the output still notifies that input exactly once —
but if the output already holds a defined value, the duplicate connect
does push that value to the already-connected input once more (one push
per connect call). -/
theorem duplicate_connect_amended :
    gateConns c7s4 0 = [⟨1, 0⟩] ∧
    writesTo c7s4 ⟨1, 0⟩ = writesTo c7s3 ⟨1, 0⟩ + 1 ∧
    gateIn0 c7s4 1 = some true ∧
    gateConns c7s5 0 = [⟨1, 0⟩] ∧
    writesTo c7s5 ⟨1, 0⟩ = writesTo c7s4 ⟨1, 0⟩ + 1 ∧
    gateIn0 c7s5 1 = some false ∧
    gateOut c7s5 1 = some true := by decide

/-- C9 counterexample: constructing a gate with a circuit argument that is
not a `Circuit` but is FALSY (Python `0`, `False`, `""`, `[]`) does not
raise: the guard `if circuit:` (lines 134, 158) skips the isinstance check
entirely and the construction completes normally, where the claim says any
non-Circuit circuit argument raises. -/
theorem falsy_non_circuit_accepted :
    isOk (mkGate 9 s0 GateKind.notg "n" CircuitArg.falsyNonCircuit) = true := by decide

/-- C9 (amended): structural errors are raised immediately at the
offending call, from any state: `connect` with a non-Input target raises,
constructing an `Input` whose owner is not a gate raises, and constructing
a gate with a TRUTHY circuit argument that is not a `Circuit` raises —
while a falsy non-Circuit circuit argument is silently treated like the
default `None` and does not raise. -/
theorem structural_errors_raised :
    ∀ (s : PyState) (fuel gid : Nat) (k : GateKind) (nm : String),
      isExn (connect fuel s gid Target.notInput) = true ∧
      isExn (mkInputStandalone s OwnerArg.notAGate) = true ∧
      isExn (mkGate fuel s k nm CircuitArg.truthyNonCircuit) = true ∧
      isOk (mkGate fuel s k nm CircuitArg.falsyNonCircuit) = true := by
  intro s fuel gid k nm
  exact ⟨rfl, rfl, rfl, rfl⟩

/-- C10: `Circuit.add` terminates (the tail walk finds the end of the
chain, so the result is never fuel exhaustion) whenever the gates already
linked from the circuit's head form a duplicate-free `next`-chain — the
shape produced by adding distinct gates; but the duplicate
`circuit.add(g1)` in scenario `stB` has linked gate 0 as its own `next`
successor, after which every subsequent add call on that circuit runs the
`while` loop forever (fuel exhaustion for every fuel, i.e. for any gate
one might add). -/
theorem circuit_add_termination_and_duplicate_cycle :
    (∀ (s : PyState) (cid gid h : Nat) (c : CircuitObj) (L : List Nat),
        s.circuits[cid]? = some c → c.head = some h → Chain s h L → L.Nodup →
        ∃ fuel, circuitAdd fuel s cid gid ≠ PRes.fuelOut) ∧
    getNxt stB 0 = some 0 ∧
    (∀ fuel gid, circuitAdd fuel stB 0 gid = PRes.fuelOut) := by
  refine ⟨?_, by decide, ?_⟩
  · intro s cid gid h c L hcid hhead hchain _
    obtain ⟨last, hl⟩ := findLast_of_chain s h L hchain
    refine ⟨L.length, ?_⟩
    simp only [circuitAdd, hcid, hhead, hl]
    cases hgl : s.gates[last]? with
    | none => simp
    | some lg =>
      simp only []
      cases gateCostRead { s with gates := s.gates.set last { lg with nxt := some gid } } gid with
      | none => simp
      | some k =>
        cases c.cost with
        | none => simp
        | some c0 => simp
  · intro fuel gid
    have h2 : getNxt stB 0 = some 0 := by decide
    have h1 : stB.circuits[0]? = some { head := some 0, cost := some 180 } := by decide
    simp only [circuitAdd, h1, findLast_selfloop stB 0 h2 fuel]

/-- Witness for C10: the termination statement applies to the concrete
one-gate circuit `stA`, whose chain from the head is the single gate 0. -/
theorem circuit_add_termination_witness :
    ∃ fuel, circuitAdd fuel stA 0 5 ≠ PRes.fuelOut :=
  circuit_add_termination_and_duplicate_cycle.1 stA 0 5 0
    { head := some 0, cost := some 90 } [0]
    (by decide) rfl (Chain.last 0 (by decide)) (by decide)

end Assignment05
